import Mathlib

/-!
Shallow embedding of the client-side telemetry and resilient-transport core of
JellyNotify (Jellynouncer web interface): the `ClientLogger` service from
`src/web/src/services/logger.js` and the instrumented axios pipeline from the
API service module.  Stateful code is embedded as explicit state passing; the
event-loop environment (entries appended during an awaited send, the outcome
of the collector POST) is passed in as an explicit record.
-/

namespace Jellynouncer

/-- Configuration constant from logger.js: number of logs to batch before sending. -/
def LOG_BATCH_SIZE : Nat := 20

/-- Configuration constant from logger.js: maximum logs to store in localStorage. -/
def MAX_STORED_LOGS : Nat := 100

/-- The four log levels used by the client logger (loglevel severities debug < info < warn < error). -/
inductive Level where
  | debug
  | info
  | warn
  | error
deriving Repr, DecidableEq

/-- Numeric severity matching the ordering used by the loglevel library. -/
def Level.severity : Level → Nat
  | .debug => 1
  | .info => 2
  | .warn => 3
  | .error => 4

/-- `level.toUpperCase()` as written into each log entry by `addToQueue`. -/
def Level.upperName : Level → String
  | .debug => "DEBUG"
  | .info => "INFO"
  | .warn => "WARN"
  | .error => "ERROR"

/-- A log entry as built by `ClientLogger.addToQueue` (logger.js lines 144-152).
`metadata` holds the extracted metadata object as a list of key-value pairs. -/
structure LogEntry where
  timestamp : String
  level : String
  sessionId : String
  url : String
  message : String
  metadata : List (String × String)
  userAgent : String
deriving Repr, DecidableEq

/-- Mutable state of the `ClientLogger` singleton plus the browser facilities it
touches: `storage` is the localStorage slot under LOG_STORAGE_KEY, `console` is
the record of local console echo produced by the captured original loglevel
methods, and `logLevel` is the threshold installed by `log.setLevel` at
construction. -/
structure LoggerState where
  logQueue : List LogEntry
  sessionId : String
  isOnline : Bool
  isSending : Bool
  logLevel : Level
  console : List (Level × String)
  storage : Option (List LogEntry)
deriving Repr, DecidableEq

/-- Environment of one `flushLogs` invocation: the entries other handlers append
to the queue while the network send is awaited, and whether the collector POST
returns a 2xx response (`response.ok`). -/
structure FlushEnv where
  during : List LogEntry
  sendOk : Bool
deriving Repr

/-- Result of a flush-capable operation: the new logger state and the batch
handed to the transport in this invocation, if any. -/
structure FlushResult where
  state : LoggerState
  shipped : Option (List LogEntry)
deriving Repr, DecidableEq

/-- JavaScript `l.slice(-n)` for `n > 0`: the at most `n` last elements of `l`, in order. -/
def sliceLast (n : Nat) (l : List α) : List α := l.drop (l.length - n)

/-- `ClientLogger.savePendingLogs` (logger.js lines 212-222): if the queue is
non-empty, overwrite the localStorage slot with the last MAX_STORED_LOGS queue
entries. -/
def savePendingLogs (s : LoggerState) : LoggerState :=
  if 0 < s.logQueue.length then
    { s with storage := some (sliceLast MAX_STORED_LOGS s.logQueue) }
  else s

/-- `ClientLogger.flushLogs` (logger.js lines 224-290).  Guard: return
immediately when a send is in flight or the queue is empty.  Offline: persist
the queue and return.  Otherwise swap the queue out into `logsToSend`, mark
`isSending`, and send.  The synchronous (teardown) path uses sendBeacon, which
is fire-and-forget and observes no failure.  The normal path awaits the POST;
entries appended during the await are `env.during`; on failure the batch is
re-prepended ahead of them and mirrored to storage; `finally` clears
`isSending`. -/
def flushLogs (env : FlushEnv) (s : LoggerState) (synchronous : Bool) : FlushResult :=
  if s.isSending || s.logQueue.length == 0 then
    { state := s, shipped := none }
  else if !s.isOnline then
    { state := savePendingLogs s, shipped := none }
  else
    let logsToSend := s.logQueue
    let s1 := { s with isSending := true, logQueue := [] }
    if synchronous then
      { state := { s1 with isSending := false }, shipped := some logsToSend }
    else
      let s2 := { s1 with logQueue := s1.logQueue ++ env.during }
      if env.sendOk then
        { state := { s2 with isSending := false }, shipped := some logsToSend }
      else
        let s3 := { s2 with logQueue := logsToSend ++ s2.logQueue }
        let s4 := savePendingLogs s3
        { state := { s4 with isSending := false }, shipped := some logsToSend }

/-- `ClientLogger.addToQueue` (logger.js lines 142-160): push the entry, then
flush immediately if the queue length reached LOG_BATCH_SIZE. -/
def addToQueue (env : FlushEnv) (s : LoggerState) (entry : LogEntry) : FlushResult :=
  let s1 := { s with logQueue := s.logQueue ++ [entry] }
  if LOG_BATCH_SIZE ≤ s1.logQueue.length then
    flushLogs env s1 false
  else
    { state := s1, shipped := none }

/-- The captured original loglevel method (logger.js lines 38-43): echoes to the
console exactly when the call level is enabled at the threshold installed by
`log.setLevel` at construction (loglevel library semantics). -/
def originalEcho (s : LoggerState) (lvl : Level) (msg : String) : LoggerState :=
  if s.logLevel.severity ≤ lvl.severity then
    { s with console := s.console ++ [(lvl, msg)] }
  else s

/-- The intercepted log method installed by `ClientLogger.setupInterceptors`
(logger.js lines 81-92): call the captured original method for console output,
then unconditionally add an entry to the queue.  `now`, `pageUrl` and `agent`
are the ambient Date, location and navigator values read by `addToQueue`; the
call arguments are a single string message, for which `formatMessage` is the
identity and `extractMetadata` is empty. -/
def interceptedLog (env : FlushEnv) (now pageUrl agent : String) (s : LoggerState)
    (lvl : Level) (msg : String) : FlushResult :=
  let s1 := originalEcho s lvl msg
  addToQueue env s1
    { timestamp := now, level := lvl.upperName, sessionId := s1.sessionId,
      url := pageUrl, message := msg, metadata := [], userAgent := agent }

/-- The window online handler (logger.js lines 96-100): set `isOnline`, echo
via the captured original info method, then flush pending logs. -/
def handleOnline (env : FlushEnv) (s : LoggerState) : FlushResult :=
  let s1 := { s with isOnline := true }
  let s2 := originalEcho s1 Level.info "Connection restored"
  flushLogs env s2 false

/-- The window offline handler (logger.js lines 102-105): set `isOnline` to
false and echo a warning via the captured original warn method.  It performs no
flush and makes no transport call. -/
def handleOffline (s : LoggerState) : LoggerState :=
  let s1 := { s with isOnline := false }
  originalEcho s1 Level.warn "Connection lost - logs will be queued"

/-- `ClientLogger.destroy` (logger.js lines 370-375): clear the batch timer
(scheduler machinery, not part of the logging state) and run a final
synchronous flush. -/
def destroy (env : FlushEnv) (s : LoggerState) : FlushResult :=
  flushLogs env s true

/-- JavaScript `url.includes(pat)`: `pat` occurs as a substring of `url`. -/
def urlIncludes (url pat : String) : Bool :=
  decide (List.IsInfix pat.data url.data)

/-- JavaScript object property assignment on a headers object viewed as an
association list: replace the first binding of the key, or append one. -/
def setHeader : List (String × String) → String → String → List (String × String)
  | [], k, v => [(k, v)]
  | (k0, v0) :: rest, k, v =>
      if k0 == k then (k, v) :: rest else (k0, v0) :: setHeader rest k v

/-- JavaScript property read on a headers object viewed as an association list. -/
def getHeader : List (String × String) → String → Option String
  | [], _ => none
  | (k0, v0) :: rest, k => if k0 == k then some v0 else getHeader rest k

/-- An axios request config as handled by the interceptors in the API service
module: method, url, params, body, headers, and the `_retry` marker (absent on
a fresh request, modelled as `false`). -/
structure RequestConfig where
  method : String
  url : String
  params : List (String × String)
  data : Option String
  headers : List (String × String)
  retryFlag : Bool
deriving Repr, DecidableEq

/-- The record passed to `logger.debug` by the request interceptor (API service
module): message plus method, url, params, data, the full headers object, and
the generated request id. -/
structure ApiRequestLogRecord where
  message : String
  method : String
  url : String
  params : List (String × String)
  data : Option String
  headers : List (String × String)
  requestId : String
deriving Repr, DecidableEq

/-- The DEBUG log record emitted by `api.interceptors.request` at dispatch: the
headers object is logged verbatim, with no redaction of any header value. -/
def requestInterceptorLogRecord (config : RequestConfig) (requestId : String) :
    ApiRequestLogRecord :=
  { message := "API Request: " ++ config.method.toUpper ++ " " ++ config.url,
    method := config.method, url := config.url, params := config.params,
    data := config.data, headers := config.headers, requestId := requestId }

/-- An axios error as seen by the response error interceptor: the originating
request config, `error.response?.status`, the server-provided detail or message
string from the response body, and whether `error.request` is present (a
request was made but no response received). -/
structure ApiErrorCtx where
  config : RequestConfig
  status : Option Nat
  detail : Option String
  hasRequest : Bool
deriving Repr, DecidableEq

/-- Outcome of the response error interceptor for the caller: either the
original request is reissued (with its updated config) or the error is
rejected back to the caller. -/
inductive Outcome where
  | retried (cfg : RequestConfig)
  | rejected
deriving Repr, DecidableEq

/-- Observable result of one pass of the response error interceptor: the
outcome for the caller, the number of calls made to
`authStore.refreshAccessToken`, whether the user was logged out, and the log
and toast records emitted. -/
structure InterceptorResult where
  outcome : Outcome
  refreshInvocations : Nat
  loggedOut : Bool
  logs : List (Level × String)
  toasts : List String
deriving Repr, DecidableEq

/-- The error-classification tail of the response error interceptor: with a
response, log ERROR for status 500 and above or WARN for 400 and above, and
toast the server message unless the url contains the probe path; with a
request but no response, log and toast a network failure; otherwise log and
toast an unexpected error. -/
def classifyAndNotify (e : ApiErrorCtx) : List (Level × String) × List String :=
  match e.status with
  | some st =>
      let message := e.detail.getD "An error occurred"
      let logs :=
        if 500 ≤ st then
          [(Level.error, "API Server Error: " ++ e.config.method.toUpper ++ " " ++ e.config.url)]
        else if 400 ≤ st then
          [(Level.warn, "API Client Error: " ++ e.config.method.toUpper ++ " " ++ e.config.url)]
        else []
      let toasts := if urlIncludes e.config.url "/auth/status" then [] else [message]
      (logs, toasts)
  | none =>
      if e.hasRequest then
        ([(Level.error, "API Network Error - No response received")],
         ["No response from server. Please check your connection."])
      else
        ([(Level.error, "API Unexpected Error")], ["An unexpected error occurred"])

/-- `api.interceptors.response` error handler.  On a 401 whose request is not
yet marked `_retry`: mark it, call `authStore.refreshAccessToken` once; on
refresh success set the Authorization header to the fresh bearer token and
reissue the original request; on refresh failure log out, redirect, and fall
through to the classification tail.  Every other error goes straight to the
classification tail and is rejected to the caller.  `refreshOk` is the outcome
of the (awaited) refresh call and `freshToken` the credential it installed. -/
def respErrorInterceptor (refreshOk : Bool) (freshToken : String) (e : ApiErrorCtx) :
    InterceptorResult :=
  if e.status == some 401 && !e.config.retryFlag then
    let originalRequest := { e.config with retryFlag := true }
    if refreshOk then
      { outcome := Outcome.retried
          { originalRequest with
            headers := setHeader originalRequest.headers "Authorization"
              ("Bearer " ++ freshToken) },
        refreshInvocations := 1, loggedOut := false,
        logs := [(Level.info, "Token expired, attempting refresh"),
                 (Level.info, "Token refreshed successfully, retrying request")],
        toasts := [] }
    else
      let c := classifyAndNotify e
      { outcome := Outcome.rejected, refreshInvocations := 1, loggedOut := true,
        logs := [(Level.info, "Token expired, attempting refresh"),
                 (Level.warn, "Token refresh failed, logging out user")] ++ c.1,
        toasts := c.2 }
  else
    let c := classifyAndNotify e
    { outcome := Outcome.rejected, refreshInvocations := 0, loggedOut := false,
      logs := c.1, toasts := c.2 }

/-- State of the credential-refresh coordinator: the shared credential, whether
a refresh is in flight, the callers awaiting its outcome, and the number of
refresh-endpoint network calls actually made. -/
structure AuthCoordinatorState where
  accessToken : Option String
  refreshInFlight : Bool
  waiters : Nat
  refreshNetworkCalls : Nat
deriving Repr, DecidableEq

/-- Modelled from the spec: `authStore.refreshAccessToken`
(src/web/src/stores/authStore.js, not included under src/; only its call site
in the response interceptor is).  Spec section 4.3 mandates single-flight: a
caller arriving while no refresh is in flight starts the one refresh network
call; a caller arriving while one is in flight only joins the waiters and
triggers no independent call. -/
def refreshAccessTokenEnter (a : AuthCoordinatorState) : AuthCoordinatorState :=
  if a.refreshInFlight then
    { a with waiters := a.waiters + 1 }
  else
    { a with
      refreshInFlight := true
      waiters := a.waiters + 1
      refreshNetworkCalls := a.refreshNetworkCalls + 1 }

/-- Modelled from the spec: completion of the single in-flight refresh resolves
every waiter with the one shared outcome; on success the shared credential is
updated, on failure it is cleared.  Returns the new coordinator state and the
pair (number of waiters resolved, shared outcome). -/
def refreshAccessTokenComplete (success : Bool) (fresh : String)
    (a : AuthCoordinatorState) : AuthCoordinatorState × (Nat × Bool) :=
  ({ a with
     refreshInFlight := false
     waiters := 0
     accessToken := if success then some fresh else none },
   (a.waiters, success))

/-! Concrete sample data used by witnesses and counterexamples. -/

/-- A sample log entry with the given message. -/
def mkSample (m : String) : LogEntry :=
  { timestamp := "2026-01-01T00:00:00Z", level := "INFO", sessionId := "sess",
    url := "http://app/", message := m, metadata := [], userAgent := "ua" }

/-- A quiescent online logger state holding one queued entry. -/
def onlineState : LoggerState :=
  { logQueue := [mkSample "A"], sessionId := "sess", isOnline := true,
    isSending := false, logLevel := Level.info, console := [], storage := none }

/-! Helper lemmas shared across the development. -/

theorem sliceLast_of_length_le {l : List α} {n : Nat} (h : l.length ≤ n) :
    sliceLast n l = l := by
  simp [sliceLast, Nat.sub_eq_zero_of_le h]

theorem length_sliceLast_of_le {l : List α} {n : Nat} (h : n ≤ l.length) :
    (sliceLast n l).length = n := by
  simp [sliceLast]
  omega

theorem getHeader_setHeader (hs : List (String × String)) (k v : String) :
    getHeader (setHeader hs k v) k = some v := by
  induction hs with
  | nil => simp [setHeader, getHeader]
  | cons p rest ih =>
      obtain ⟨k0, v0⟩ := p
      by_cases h : k0 == k
      · simp [setHeader, getHeader, h]
      · simp [setHeader, getHeader, h, ih]

/-! Claim theorems. -/

/-- C10: flushLogs is guarded by a reentrancy flag: whenever a send is already
in flight (isSending) or the queue is empty, any flush invocation — timer-,
size-, visibility- or teardown-triggered, online or offline — returns
immediately with no effect, so at most one batch send is in flight at any time
and a flush triggered during an in-flight send (including the teardown flush
run by destroy) ships and persists nothing. -/
theorem C10_flush_reentrancy_guard (env : FlushEnv) (s : LoggerState) (synchronous : Bool)
    (h : s.isSending = true ∨ s.logQueue = []) :
    flushLogs env s synchronous = { state := s, shipped := none } ∧
    destroy env s = { state := s, shipped := none } := by
  have hc : (s.isSending || s.logQueue.length == 0) = true := by
    rcases h with h | h
    · simp [h]
    · simp [h]
  constructor
  · simp [flushLogs, hc]
  · simp [destroy, flushLogs, hc]

/-- C10 witness: the guard at a concrete in-flight state. -/
theorem C10_witness_concrete :
    flushLogs { during := [], sendOk := true } { onlineState with isSending := true } false =
      { state := { onlineState with isSending := true }, shipped := none } ∧
    destroy { during := [], sendOk := true } { onlineState with isSending := true } =
      { state := { onlineState with isSending := true }, shipped := none } :=
  C10_flush_reentrancy_guard { during := [], sendOk := true }
    { onlineState with isSending := true } false (Or.inl rfl)

/-- C7: for every sequence of logging calls, as soon as the Queue length
reaches the batch-size threshold LOG_BATCH_SIZE (default 20), addToQueue
itself triggers a shipment attempt immediately — the whole queue, in order, is
handed to the transport by the very call that reached the threshold, with no
timer involved (hypotheses: online, no send already in flight). -/
theorem C7_batch_size_triggers_immediate_ship (env : FlushEnv) (s : LoggerState)
    (entry : LogEntry) (h1 : s.isSending = false) (h2 : s.isOnline = true)
    (h3 : s.logQueue.length + 1 = LOG_BATCH_SIZE) :
    (addToQueue env s entry).shipped = some (s.logQueue ++ [entry]) := by
  have hlen : (s.logQueue ++ [entry]).length = LOG_BATCH_SIZE := by
    simp [List.length_append]
    omega
  by_cases hok : env.sendOk
  · simp [addToQueue, flushLogs, h1, h2, hlen, hok, LOG_BATCH_SIZE]
  · simp [addToQueue, flushLogs, h1, h2, hlen, hok, LOG_BATCH_SIZE]

/-- C7 witness: a 19-entry queue plus one more call ships all 20 at once. -/
theorem C7_witness_concrete :
    (addToQueue { during := [], sendOk := true }
        { onlineState with logQueue := List.replicate 19 (mkSample "A") }
        (mkSample "B")).shipped =
      some (List.replicate 19 (mkSample "A") ++ [mkSample "B"]) :=
  C7_batch_size_triggers_immediate_ship { during := [], sendOk := true }
    { onlineState with logQueue := List.replicate 19 (mkSample "A") }
    (mkSample "B") rfl rfl (by decide)

/-- C6: while offline, every flush (normal or teardown) leaves the queue intact
and sends nothing, and persists the queue into the bounded backlog: the full
queue when its length is at most MAX_STORED_LOGS (default 100), and otherwise
exactly the MAX_STORED_LOGS most recent entries, in order, the oldest entries
being dropped. -/
theorem C6_offline_flush_bounded_backlog (env : FlushEnv) (s : LoggerState)
    (synchronous : Bool) (h1 : s.isSending = false) (h2 : s.logQueue ≠ [])
    (h3 : s.isOnline = false) :
    (flushLogs env s synchronous).shipped = none ∧
    (flushLogs env s synchronous).state.logQueue = s.logQueue ∧
    (flushLogs env s synchronous).state.storage =
      some (sliceLast MAX_STORED_LOGS s.logQueue) ∧
    (s.logQueue.length ≤ MAX_STORED_LOGS →
      (flushLogs env s synchronous).state.storage = some s.logQueue) ∧
    (MAX_STORED_LOGS < s.logQueue.length →
      (flushLogs env s synchronous).state.storage =
        some (s.logQueue.drop (s.logQueue.length - MAX_STORED_LOGS)) ∧
      (sliceLast MAX_STORED_LOGS s.logQueue).length = MAX_STORED_LOGS) := by
  have hlen : (s.logQueue.length == 0) = false := by
    simp [List.length_eq_zero, h2]
  have hpos : 0 < s.logQueue.length := List.length_pos.mpr h2
  refine ⟨?_, ?_, ?_, ?_, ?_⟩
  · simp [flushLogs, h1, h3, hlen, savePendingLogs, hpos]
  · simp [flushLogs, h1, h3, hlen, savePendingLogs, hpos]
  · simp [flushLogs, h1, h3, hlen, savePendingLogs, hpos]
  · intro hle
    simp [flushLogs, h1, h3, hlen, savePendingLogs, hpos, sliceLast_of_length_le hle]
  · intro hgt
    refine ⟨?_, length_sliceLast_of_le (Nat.le_of_lt hgt)⟩
    simp [flushLogs, h1, h3, hlen, savePendingLogs, hpos, sliceLast]

/-- C6 witness: an offline flush of a two-entry queue persists both entries. -/
theorem C6_witness_concrete :
    (flushLogs { during := [], sendOk := true }
        { onlineState with isOnline := false, logQueue := [mkSample "A", mkSample "B"] }
        false).shipped = none ∧
    (flushLogs { during := [], sendOk := true }
        { onlineState with isOnline := false, logQueue := [mkSample "A", mkSample "B"] }
        false).state.logQueue = [mkSample "A", mkSample "B"] ∧
    (flushLogs { during := [], sendOk := true }
        { onlineState with isOnline := false, logQueue := [mkSample "A", mkSample "B"] }
        false).state.storage =
      some (sliceLast MAX_STORED_LOGS [mkSample "A", mkSample "B"]) ∧
    ([mkSample "A", mkSample "B"].length ≤ MAX_STORED_LOGS →
      (flushLogs { during := [], sendOk := true }
          { onlineState with isOnline := false, logQueue := [mkSample "A", mkSample "B"] }
          false).state.storage = some [mkSample "A", mkSample "B"]) ∧
    (MAX_STORED_LOGS < [mkSample "A", mkSample "B"].length →
      (flushLogs { during := [], sendOk := true }
          { onlineState with isOnline := false, logQueue := [mkSample "A", mkSample "B"] }
          false).state.storage =
        some ([mkSample "A", mkSample "B"].drop
          ([mkSample "A", mkSample "B"].length - MAX_STORED_LOGS)) ∧
      (sliceLast MAX_STORED_LOGS [mkSample "A", mkSample "B"]).length = MAX_STORED_LOGS) :=
  C6_offline_flush_bounded_backlog { during := [], sendOk := true }
    { onlineState with isOnline := false, logQueue := [mkSample "A", mkSample "B"] }
    false rfl (by decide) rfl

/-- C1: for every flush whose send fails (non-2xx response or transport
exception), the entire unsent batch is reinserted at the front of the live
Queue, ahead of any entries appended while the send was in flight (`during`),
and the resulting queue is mirrored to the persistent backlog (in full whenever
it fits the capacity); no entry of the batch is dropped, so a subsequent
successful shipment contains the whole batch followed by the entries logged in
between, in their original emission order. -/
theorem C1_failed_send_requeues_batch (s : LoggerState) (during : List LogEntry)
    (h1 : s.isSending = false) (h2 : s.logQueue ≠ []) (h3 : s.isOnline = true) :
    (flushLogs { during := during, sendOk := false } s false).state.logQueue =
      s.logQueue ++ during ∧
    (flushLogs { during := during, sendOk := false } s false).state.storage =
      some (sliceLast MAX_STORED_LOGS (s.logQueue ++ during)) ∧
    ((s.logQueue ++ during).length ≤ MAX_STORED_LOGS →
      (flushLogs { during := during, sendOk := false } s false).state.storage =
        some (s.logQueue ++ during)) ∧
    (flushLogs { during := during, sendOk := false } s false).state.isSending = false ∧
    (flushLogs { during := [], sendOk := true }
        (flushLogs { during := during, sendOk := false } s false).state false).shipped =
      some (s.logQueue ++ during) := by
  have hlen : (s.logQueue.length == 0) = false := by
    simp [List.length_eq_zero, h2]
  have hq : 0 < s.logQueue.length := List.length_pos.mpr h2
  refine ⟨?_, ?_, ?_, ?_, ?_⟩
  · simp [flushLogs, h1, h3, hlen, savePendingLogs, hq]
  · simp [flushLogs, h1, h3, hlen, savePendingLogs, hq]
  · intro hle
    simp [flushLogs, h1, h3, hlen, savePendingLogs, hq, sliceLast_of_length_le hle]
  · simp [flushLogs, h1, h3, hlen, savePendingLogs, hq]
  · simp [flushLogs, h1, h3, hlen, savePendingLogs, hq, h2, List.append_eq_nil]

/-- C1 witness: a failed send of the batch [A] with [B] logged in between
yields queue [A, B], mirrors it to storage, and the next successful shipment
is exactly [A, B]. -/
theorem C1_witness_concrete :
    (flushLogs { during := [mkSample "B"], sendOk := false } onlineState
        false).state.logQueue = onlineState.logQueue ++ [mkSample "B"] ∧
    (flushLogs { during := [mkSample "B"], sendOk := false } onlineState
        false).state.storage =
      some (sliceLast MAX_STORED_LOGS (onlineState.logQueue ++ [mkSample "B"])) ∧
    ((onlineState.logQueue ++ [mkSample "B"]).length ≤ MAX_STORED_LOGS →
      (flushLogs { during := [mkSample "B"], sendOk := false } onlineState
          false).state.storage = some (onlineState.logQueue ++ [mkSample "B"])) ∧
    (flushLogs { during := [mkSample "B"], sendOk := false } onlineState
        false).state.isSending = false ∧
    (flushLogs { during := [], sendOk := true }
        (flushLogs { during := [mkSample "B"], sendOk := false } onlineState
            false).state false).shipped =
      some (onlineState.logQueue ++ [mkSample "B"]) :=
  C1_failed_send_requeues_batch onlineState [mkSample "B"] rfl (by decide) rfl

/-- C8: in the connectivity state machine, the ONLINE to OFFLINE transition
changes only subsequent flush behavior — it performs no flush, makes no
transport call (handleOffline contains none by construction) and leaves the
Queue and the persistent backlog unchanged — while the OFFLINE to ONLINE
transition immediately hands the pending queue to the transport with no
application call required. -/
theorem C8_connectivity_transitions (env : FlushEnv) (s : LoggerState)
    (h1 : s.isSending = false) (h2 : s.logQueue ≠ []) :
    (handleOffline s).logQueue = s.logQueue ∧
    (handleOffline s).storage = s.storage ∧
    (handleOffline s).isOnline = false ∧
    (handleOnline env s).shipped = some s.logQueue ∧
    (handleOnline env s).state.isOnline = true := by
  have hlen : (s.logQueue.length == 0) = false := by
    simp [List.length_eq_zero, h2]
  have hq : 0 < s.logQueue.length := List.length_pos.mpr h2
  refine ⟨?_, ?_, ?_, ?_, ?_⟩
  · simp only [handleOffline, originalEcho]
    split <;> rfl
  · simp only [handleOffline, originalEcho]
    split <;> rfl
  · simp only [handleOffline, originalEcho]
    split <;> rfl
  · by_cases hecho : s.logLevel.severity ≤ Level.info.severity <;>
      by_cases hok : env.sendOk <;>
      simp [handleOnline, originalEcho, flushLogs, h1, hlen, hecho, hok, savePendingLogs, hq]
  · by_cases hecho : s.logLevel.severity ≤ Level.info.severity <;>
      by_cases hok : env.sendOk <;>
      simp [handleOnline, originalEcho, flushLogs, h1, hlen, hecho, hok, savePendingLogs, hq]

/-- C8 witness: the transitions evaluated at a concrete one-entry state. -/
theorem C8_witness_concrete :
    (handleOffline onlineState).logQueue = onlineState.logQueue ∧
    (handleOffline onlineState).storage = onlineState.storage ∧
    (handleOffline onlineState).isOnline = false ∧
    (handleOnline { during := [], sendOk := true } onlineState).shipped =
      some onlineState.logQueue ∧
    (handleOnline { during := [], sendOk := true } onlineState).state.isOnline = true :=
  C8_connectivity_transitions { during := [], sendOk := true } onlineState rfl (by decide)

/-- C3: at most one automatic retry per originating request: a 401 on a
request not yet marked retried marks it retried, performs one refresh
invocation and, on refresh success, reissues the original request once with
the refreshed bearer credential in its Authorization header; a 401 received on
the retried attempt (its config carries the retried marker) is rejected to the
caller as an authentication failure with no further refresh and no further
retry. -/
theorem C3_at_most_one_retry (tok : String) (refreshOk : Bool) (e1 e2 : ApiErrorCtx)
    (h1 : e1.config.retryFlag = false) (hs1 : e1.status = some 401)
    (h2 : e2.config.retryFlag = true) (hs2 : e2.status = some 401) :
    (respErrorInterceptor true tok e1).outcome =
      Outcome.retried
        { e1.config with
          retryFlag := true
          headers := setHeader e1.config.headers "Authorization" ("Bearer " ++ tok) } ∧
    (respErrorInterceptor true tok e1).refreshInvocations = 1 ∧
    getHeader (setHeader e1.config.headers "Authorization" ("Bearer " ++ tok))
      "Authorization" = some ("Bearer " ++ tok) ∧
    (respErrorInterceptor refreshOk tok e2).outcome = Outcome.rejected ∧
    (respErrorInterceptor refreshOk tok e2).refreshInvocations = 0 := by
  refine ⟨?_, ?_, getHeader_setHeader _ _ _, ?_, ?_⟩
  · simp [respErrorInterceptor, h1, hs1]
  · simp [respErrorInterceptor, h1, hs1]
  · simp [respErrorInterceptor, h2, hs2]
  · simp [respErrorInterceptor, h2, hs2]

/-- A concrete fresh request receiving a 401. -/
def freshRequest401 : ApiErrorCtx :=
  { config := { method := "get", url := "/api/overview", params := [], data := none,
                headers := [("Content-Type", "application/json")], retryFlag := false },
    status := some 401, detail := none, hasRequest := true }

/-- The same request after its one retry, receiving a second 401. -/
def retriedRequest401 : ApiErrorCtx :=
  { freshRequest401 with config := { freshRequest401.config with retryFlag := true } }

/-- C3 witness: the retry protocol evaluated at a concrete 401 pair. -/
theorem C3_witness_concrete :
    (respErrorInterceptor true "newtok" freshRequest401).outcome =
      Outcome.retried
        { freshRequest401.config with
          retryFlag := true
          headers := setHeader freshRequest401.config.headers "Authorization"
            ("Bearer " ++ "newtok") } ∧
    (respErrorInterceptor true "newtok" freshRequest401).refreshInvocations = 1 ∧
    getHeader (setHeader freshRequest401.config.headers "Authorization"
      ("Bearer " ++ "newtok")) "Authorization" = some ("Bearer " ++ "newtok") ∧
    (respErrorInterceptor false "newtok" retriedRequest401).outcome = Outcome.rejected ∧
    (respErrorInterceptor false "newtok" retriedRequest401).refreshInvocations = 0 :=
  C3_at_most_one_retry "newtok" false freshRequest401 retriedRequest401
    rfl rfl rfl rfl

/-- A 500 response from the designated probe endpoint. -/
def probeServerError : ApiErrorCtx :=
  { config := { method := "get", url := "/api/auth/status", params := [], data := none,
                headers := [], retryFlag := false },
    status := some 500, detail := none, hasRequest := true }

/-- C9 counterexample: the claim says the probe-endpoint exemption applies only
to the 400 to 499 class, so a 5xx response always surfaces a failure
notification; but a 500 from a url containing the probe path logs ERROR and
surfaces no notification at all — the suppression applies to 5xx too. -/
theorem C9_counterexample_probe_5xx_no_toast :
    (respErrorInterceptor true "tok" probeServerError).toasts = [] ∧
    (respErrorInterceptor true "tok" probeServerError).logs =
      [(Level.error, "API Server Error: " ++ probeServerError.config.method.toUpper ++
        " " ++ probeServerError.config.url)] := by
  have hurl : urlIncludes "/api/auth/status" "/auth/status" = true := by decide
  constructor
  · simp [respErrorInterceptor, classifyAndNotify, probeServerError, hurl]
  · simp [respErrorInterceptor, classifyAndNotify, probeServerError]

/-- C9 amended: for every failed API response with status 500 or greater, an
ERROR-level log entry is recorded and no refresh is attempted, and the generic
failure notification is surfaced exactly when the request url does not contain
the probe path, since the low-noise probe-endpoint exemption applies to every
response error class, 5xx included. -/
theorem C9_server_error_logged_toast_unless_probe (refreshOk : Bool) (tok : String)
    (e : ApiErrorCtx) (st : Nat) (hst : e.status = some st) (h5 : 500 ≤ st) :
    (respErrorInterceptor refreshOk tok e).logs =
      [(Level.error, "API Server Error: " ++ e.config.method.toUpper ++ " " ++ e.config.url)] ∧
    (respErrorInterceptor refreshOk tok e).refreshInvocations = 0 ∧
    (respErrorInterceptor refreshOk tok e).toasts =
      (if urlIncludes e.config.url "/auth/status" then []
       else [e.detail.getD "An error occurred"]) := by
  have hn401 : ¬st = 401 := by omega
  refine ⟨?_, ?_, ?_⟩
  · simp [respErrorInterceptor, classifyAndNotify, hst, hn401, h5]
  · simp [respErrorInterceptor, classifyAndNotify, hst, hn401]
  · simp [respErrorInterceptor, classifyAndNotify, hst, hn401]

/-- A 503 response from a non-probe endpoint carrying a server detail message. -/
def overviewServerError : ApiErrorCtx :=
  { config := { method := "get", url := "/api/overview", params := [], data := none,
                headers := [], retryFlag := false },
    status := some 503, detail := some "upstream unavailable", hasRequest := true }

/-- C9 witness: a 503 from a non-probe endpoint logs ERROR and surfaces the
server-provided message. -/
theorem C9_witness_concrete :
    (respErrorInterceptor true "tok" overviewServerError).logs =
      [(Level.error, "API Server Error: " ++ overviewServerError.config.method.toUpper ++
        " " ++ overviewServerError.config.url)] ∧
    (respErrorInterceptor true "tok" overviewServerError).refreshInvocations = 0 ∧
    (respErrorInterceptor true "tok" overviewServerError).toasts =
      (if urlIncludes overviewServerError.config.url "/auth/status" then []
       else [overviewServerError.detail.getD "An error occurred"]) :=
  C9_server_error_logged_toast_unless_probe true "tok" overviewServerError 503
    rfl (by decide)

/-- C2: if two requests each receive a 401 in the same failure window, exactly
one credential-refresh network call is performed: the first caller entering
the (spec-modelled, section 4.3) single-flight coordinator starts the one
refresh, the second only joins the waiters; completing the refresh resolves
both waiters with the single shared success outcome and installs the fresh
credential, after which each request is retried exactly once with the
refreshed bearer credential. -/
theorem C2_single_flight_refresh (a0 : AuthCoordinatorState) (tok : String)
    (e1 e2 : ApiErrorCtx)
    (ha : a0.refreshInFlight = false) (hc : a0.refreshNetworkCalls = 0)
    (hw : a0.waiters = 0)
    (h1 : e1.config.retryFlag = false) (hs1 : e1.status = some 401)
    (h2 : e2.config.retryFlag = false) (hs2 : e2.status = some 401) :
    (refreshAccessTokenEnter (refreshAccessTokenEnter a0)).refreshNetworkCalls = 1 ∧
    (refreshAccessTokenEnter (refreshAccessTokenEnter a0)).waiters = 2 ∧
    (refreshAccessTokenComplete true tok
      (refreshAccessTokenEnter (refreshAccessTokenEnter a0))).2 = (2, true) ∧
    (refreshAccessTokenComplete true tok
      (refreshAccessTokenEnter (refreshAccessTokenEnter a0))).1.accessToken = some tok ∧
    (respErrorInterceptor true tok e1).outcome =
      Outcome.retried
        { e1.config with
          retryFlag := true
          headers := setHeader e1.config.headers "Authorization" ("Bearer " ++ tok) } ∧
    (respErrorInterceptor true tok e2).outcome =
      Outcome.retried
        { e2.config with
          retryFlag := true
          headers := setHeader e2.config.headers "Authorization" ("Bearer " ++ tok) } := by
  refine ⟨?_, ?_, ?_, ?_, ?_, ?_⟩
  · simp [refreshAccessTokenEnter, ha, hc]
  · simp [refreshAccessTokenEnter, ha, hw]
  · simp [refreshAccessTokenComplete, refreshAccessTokenEnter, ha, hw]
  · simp [refreshAccessTokenComplete, refreshAccessTokenEnter, ha]
  · simp [respErrorInterceptor, h1, hs1]
  · simp [respErrorInterceptor, h2, hs2]

/-- The idle auth coordinator at the start of a failure window. -/
def idleCoordinator : AuthCoordinatorState :=
  { accessToken := some "oldtok", refreshInFlight := false, waiters := 0,
    refreshNetworkCalls := 0 }

/-- A second concrete fresh request receiving a 401 in the same window. -/
def secondRequest401 : ApiErrorCtx :=
  { config := { method := "get", url := "/api/config", params := [], data := none,
                headers := [("Content-Type", "application/json")], retryFlag := false },
    status := some 401, detail := none, hasRequest := true }

/-- C2 witness: two concrete 401 callers share one refresh network call. -/
theorem C2_witness_concrete :
    (refreshAccessTokenEnter (refreshAccessTokenEnter idleCoordinator)).refreshNetworkCalls = 1 ∧
    (refreshAccessTokenEnter (refreshAccessTokenEnter idleCoordinator)).waiters = 2 ∧
    (refreshAccessTokenComplete true "newtok"
      (refreshAccessTokenEnter (refreshAccessTokenEnter idleCoordinator))).2 = (2, true) ∧
    (refreshAccessTokenComplete true "newtok"
      (refreshAccessTokenEnter (refreshAccessTokenEnter idleCoordinator))).1.accessToken =
      some "newtok" ∧
    (respErrorInterceptor true "newtok" freshRequest401).outcome =
      Outcome.retried
        { freshRequest401.config with
          retryFlag := true
          headers := setHeader freshRequest401.config.headers "Authorization"
            ("Bearer " ++ "newtok") } ∧
    (respErrorInterceptor true "newtok" secondRequest401).outcome =
      Outcome.retried
        { secondRequest401.config with
          retryFlag := true
          headers := setHeader secondRequest401.config.headers "Authorization"
            ("Bearer " ++ "newtok") } :=
  C2_single_flight_refresh idleCoordinator "newtok" freshRequest401 secondRequest401
    rfl rfl rfl rfl rfl rfl rfl

/-- A logger state whose configured minimum severity is info. -/
def infoLevelState : LoggerState :=
  { logQueue := [], sessionId := "sess", isOnline := true, isSending := false,
    logLevel := Level.info, console := [], storage := none }

/-- C4 counterexample: with the configured minimum severity at info, a debug
call is below threshold, yet after the call the Queue is not empty — the
interceptor installed by setupInterceptors enqueues unconditionally, so the
entry does reach the network queue, contradicting the claim that no LogEntry
for it is ever appended. -/
theorem C4_counterexample_below_level_enqueued :
    Level.debug.severity < Level.info.severity ∧
    infoLevelState.logLevel = Level.info ∧
    (interceptedLog { during := [], sendOk := true } "2026-01-01T00:00:00Z"
        "http://app/" "ua" infoLevelState Level.debug "verbose detail").state.logQueue ≠
      [] := by
  refine ⟨by decide, rfl, ?_⟩
  simp [interceptedLog, originalEcho, addToQueue, flushLogs, infoLevelState,
    Level.severity, LOG_BATCH_SIZE]

/-- C4 amended: a logging call whose level is below the configured minimum
severity is dropped from the local console echo only; its LogEntry is still
appended to the network Queue (the interceptor enqueues unconditionally) and
no immediate shipment is triggered while the queue stays below the batch
size. -/
theorem C4_below_threshold_still_enqueued (env : FlushEnv)
    (now pageUrl agent : String) (s : LoggerState) (lvl : Level) (msg : String)
    (hbelow : lvl.severity < s.logLevel.severity)
    (hroom : s.logQueue.length + 1 < LOG_BATCH_SIZE) :
    (interceptedLog env now pageUrl agent s lvl msg).state.console = s.console ∧
    (interceptedLog env now pageUrl agent s lvl msg).state.logQueue =
      s.logQueue ++
        [{ timestamp := now, level := lvl.upperName, sessionId := s.sessionId,
           url := pageUrl, message := msg, metadata := [], userAgent := agent }] ∧
    (interceptedLog env now pageUrl agent s lvl msg).shipped = none := by
  have hecho : ¬s.logLevel.severity ≤ lvl.severity := Nat.not_le_of_lt hbelow
  have hlt : ¬LOG_BATCH_SIZE ≤ (s.logQueue.length + 1) := Nat.not_le_of_lt hroom
  refine ⟨?_, ?_, ?_⟩
  · simp [interceptedLog, originalEcho, addToQueue, hecho, hlt]
  · simp [interceptedLog, originalEcho, addToQueue, hecho, hlt]
  · simp [interceptedLog, originalEcho, addToQueue, hecho, hlt]

/-- C4 witness for the amended claim: a concrete below-threshold debug call. -/
theorem C4_witness_concrete :
    (interceptedLog { during := [], sendOk := true } "2026-01-01T00:00:01Z"
        "http://app/page" "ua" infoLevelState Level.debug "diag").state.console =
      infoLevelState.console ∧
    (interceptedLog { during := [], sendOk := true } "2026-01-01T00:00:01Z"
        "http://app/page" "ua" infoLevelState Level.debug "diag").state.logQueue =
      infoLevelState.logQueue ++
        [{ timestamp := "2026-01-01T00:00:01Z", level := Level.debug.upperName,
           sessionId := infoLevelState.sessionId, url := "http://app/page",
           message := "diag", metadata := [], userAgent := "ua" }] ∧
    (interceptedLog { during := [], sendOk := true } "2026-01-01T00:00:01Z"
        "http://app/page" "ua" infoLevelState Level.debug "diag").shipped = none :=
  C4_below_threshold_still_enqueued { during := [], sendOk := true }
    "2026-01-01T00:00:01Z" "http://app/page" "ua" infoLevelState Level.debug "diag"
    (by decide) (by decide)

/-- A request config carrying the given bearer credential in its
Authorization header. -/
def tokenConfig (t : String) : RequestConfig :=
  { method := "get", url := "/api/overview", params := [], data := none,
    headers := [("Content-Type", "application/json"),
                ("Authorization", "Bearer " ++ t)],
    retryFlag := false }

/-- C5: the DEBUG record logged by the request interceptor at dispatch carries
the Authorization header value verbatim — the bearer credential appears in the
logged output, and the logged record is not invariant under changing the
authorization header between two runs.  This refutes the claimed redaction on
the code as written; the spec (section 9) states the required behavior, so the
code, not the claim, is at fault. -/
theorem C5_credential_logged_in_request_log :
    getHeader (requestInterceptorLogRecord (tokenConfig "secretA") "rid1").headers
      "Authorization" = some ("Bearer " ++ "secretA") ∧
    requestInterceptorLogRecord (tokenConfig "secretA") "rid1" ≠
      requestInterceptorLogRecord (tokenConfig "secretB") "rid1" := by
  constructor
  · decide
  · intro h
    have hh := congrArg ApiRequestLogRecord.headers h
    revert hh
    decide

end Jellynouncer
